import Mathlib

/-!
Shallow embedding of the authentication core of the repository
(`src/services/auth.py`, `src/api/auth.py`, `src/conf/config.py`),
with theorems checking the natural-language specification against it.

Modelling conventions:
* A JWT is modelled symbolically: `Token.signed claims secret alg` is a
  token whose payload is `claims`, signed with `secret` under algorithm
  `alg`; `Token.garbage` is any string that is not a well-formed JWT.
  `jose_decode` models `jose.jwt.decode`: it succeeds exactly when the
  secret and algorithm match and the `exp` claim (when present) has not
  passed.  This idealizes the signature as unforgeable.
* Python `dict` payloads used by the code carry at most the keys
  `sub`, `iat`, `exp`; a key is either absent (`none`), present with
  JSON null (`some none` for `sub`), or present with a value.
* Python exceptions are `PyError`; raising is returning `Except.error`.
  `HTTPException(status, detail)` is `PyError.httpException`;
  an uncaught `KeyError`/`AttributeError` is modelled explicitly since
  the code's `except JWTError` clauses do not catch them.
* passlib's bcrypt is idealized as a collision-free keyed digest
  (`bcryptDigest`): hashing is salted and deterministic per salt, and
  the digest is injective in the password for a fixed salt.  A stored
  hash string is either a well-formed bcrypt hash (`PHash.bcrypt`) or
  malformed (`PHash.malformed`); `CryptContext.verify` raises
  `UnknownHashError` on a string it cannot identify, per passlib.
* The effects of `login_user` on redis are returned as an explicit list
  of operations (`RedisOp`), in program order.
-/

/-- Model of `src/conf/config.py` `Settings` (the JWT-relevant fields,
with the source defaults). -/
structure Settings where
  JWT_SECRET : String
  JWT_ALGORITHM : String := "HS256"
  JWT_EXPIRATION_SECONDS : Int := 3600
deriving Repr, DecidableEq

/-- A JWT payload as used by this code base: the `sub`, `iat`, `exp`
keys of the Python dict.  For `sub`, `none` means the key is absent and
`some none` means it is present with JSON null. -/
structure Claims where
  sub : Option (Option String) := none
  iat : Option Int := none
  exp : Option Int := none
deriving Repr, DecidableEq

/-- A token string: either a well-formed JWT signed with some secret and
algorithm, or a string that is not a JWT at all. -/
inductive Token where
  | signed (claims : Claims) (secret : String) (alg : String)
  | garbage (raw : String)
deriving Repr, DecidableEq

/-- Python exceptions raised by the modelled code. -/
inductive PyError where
  | httpException (statusCode : Nat) (detail : String)
  | keyError (key : String)
  | attributeError (attr : String)
  | unknownHashError
deriving Repr, DecidableEq

/-- Model of `jose.jwt.decode(token, secret, algorithms=[alg])` at time
`now` (seconds): returns the payload when the signature verifies under
`secret`/`alg` and the `exp` claim, when present, has not passed;
returns `none` (raising `JWTError`) otherwise. -/
def jose_decode (t : Token) (secret alg : String) (now : Int) : Option Claims :=
  match t with
  | .garbage _ => none
  | .signed claims s a =>
    if s = secret ∧ a = alg then
      match claims.exp with
      | none => some claims
      | some e => if now ≤ e then some claims else none
    else none

/-- Python truthiness of an `Optional[int]`: `None` and `0` are falsy. -/
def pyTruthy : Option Int → Bool
  | none => false
  | some n => n != 0

/-- Model of `create_access_token(data, expires_delta)` from
`src/services/auth.py` at current time `now`: copies `data`, sets
`exp` to `now + expires_delta` when `expires_delta` is truthy and to
`now + settings.JWT_EXPIRATION_SECONDS` otherwise, and signs with the
configured secret and algorithm. -/
def create_access_token (data : Claims) (expires_delta : Option Int)
    (now : Int) (cfg : Settings) : Token :=
  let expire : Int :=
    if pyTruthy expires_delta then now + expires_delta.getD 0
    else now + cfg.JWT_EXPIRATION_SECONDS
  .signed { data with exp := some expire } cfg.JWT_SECRET cfg.JWT_ALGORITHM

/-- Model of `create_email_token(data)` from `src/services/auth.py` at
current time `now`: sets `iat` to `now` and `exp` to `now + 7 days`. -/
def create_email_token (data : Claims) (now : Int) (cfg : Settings) : Token :=
  .signed { data with iat := some now, exp := some (now + 7 * 86400) }
    cfg.JWT_SECRET cfg.JWT_ALGORITHM

/-- The `credentials_exception` constructed in `get_current_user`. -/
def credentials_exception : PyError :=
  .httpException 401 "Could not validate credentials"

/-- Idealized bcrypt digest for a given salt and password, modelled as
collision-free: for a fixed salt it is injective in the password. -/
def bcryptDigest (salt password : String) : String :=
  salt ++ ":" ++ password

/-- A stored password-hash string as passlib classifies it: either a
well-formed bcrypt hash carrying its salt and digest, or a string that
passlib cannot identify as any configured scheme. -/
inductive PHash where
  | bcrypt (salt : String) (digest : String)
  | malformed (raw : String)
deriving Repr, DecidableEq

/-- Model of passlib `CryptContext(schemes=["bcrypt"]).verify`: raises
`UnknownHashError` when the stored string is not a recognizable bcrypt
hash, and otherwise recomputes the digest with the stored salt and
compares. -/
def pwd_context_verify (password : String) (h : PHash) : Except PyError Bool :=
  match h with
  | .malformed _ => .error .unknownHashError
  | .bcrypt salt digest => .ok (bcryptDigest salt password == digest)

/-- Model of passlib `CryptContext.hash` with the salt the algorithm
chose for this call: a well-formed bcrypt hash of the password. -/
def pwd_context_hash (salt password : String) : PHash :=
  .bcrypt salt (bcryptDigest salt password)

/-- Model of `Hash.verify_password` from `src/services/auth.py`: a
direct delegation to `pwd_context.verify`. -/
def verify_password (plain_password : String) (hashed_password : PHash) :
    Except PyError Bool :=
  pwd_context_verify plain_password hashed_password

/-- Model of `Hash.get_password_hash` from `src/services/auth.py`: a
direct delegation to `pwd_context.hash`. -/
def get_password_hash (salt password : String) : PHash :=
  pwd_context_hash salt password

/-- The user entity fields consumed by the auth core. -/
structure User where
  id : Nat
  username : String
  email : String
  hashed_password : PHash
  confirmed : Bool
  avatar : Option String
deriving Repr, DecidableEq

/-- Model of `get_current_user(token, db)` from `src/services/auth.py`.
`lookup` models `UserService(db).get_user_by_username`.  The decode and
the `payload["sub"]` subscript happen inside `try ... except JWTError`:
a `JWTError` becomes the 401 `credentials_exception`, but a `KeyError`
from a payload lacking the `"sub"` key is not caught and propagates.
A present-but-null subject trips `if username is None`, raising the 401
(an `HTTPException` is not a `JWTError`, so it escapes the `try`). -/
def get_current_user (token : Token) (lookup : String → Option User)
    (now : Int) (cfg : Settings) : Except PyError User :=
  match jose_decode token cfg.JWT_SECRET cfg.JWT_ALGORITHM now with
  | none => .error credentials_exception
  | some payload =>
    match payload.sub with
    | none => .error (.keyError "sub")
    | some none => .error credentials_exception
    | some (some username) =>
      match lookup username with
      | none => .error credentials_exception
      | some user => .ok user

/-- Model of `get_email_from_token(token)` from `src/services/auth.py`:
decodes the token and returns `payload["sub"]` (whatever value it holds,
including JSON null, modelled as `none`); a `JWTError` becomes an HTTP
422, while a `KeyError` from a missing `"sub"` key propagates. -/
def get_email_from_token (token : Token) (now : Int) (cfg : Settings) :
    Except PyError (Option String) :=
  match jose_decode token cfg.JWT_SECRET cfg.JWT_ALGORITHM now with
  | none => .error (.httpException 422
      "Неправильний токен для перевірки електронної пошти")
  | some payload =>
    match payload.sub with
    | none => .error (.keyError "sub")
    | some v => .ok v

/-- The user snapshot `login_user` serializes into redis. -/
structure UserSnapshot where
  id : Nat
  username : String
  email : String
  confirmed : Bool
  avatar : Option String
deriving Repr, DecidableEq

/-- A redis operation performed by `login_user`, in program order. -/
inductive RedisOp where
  | set (key : String) (value : UserSnapshot)
  | expire (key : String) (seconds : Nat)
deriving Repr, DecidableEq

/-- The body of the login response. -/
structure TokenResponse where
  access_token : Token
  token_type : String
deriving Repr, DecidableEq

/-- Model of `login_user` from `src/api/auth.py`.  `lookup` models
`UserService(db).get_user_by_username`.  Returns the HTTP result paired
with the list of redis operations performed (empty when the handler
raises before reaching them).  The password check is short-circuited:
when the user is absent, `verify_password` is never called; when
`verify_password` itself raises (malformed stored hash), the exception
propagates and nothing is written. -/
def login_user (form_username form_password : String)
    (lookup : String → Option User) (now : Int) (cfg : Settings) :
    Except PyError TokenResponse × List RedisOp :=
  match lookup form_username with
  | none =>
    (.error (.httpException 401 "Неправильний логін або пароль"), [])
  | some user =>
    match verify_password form_password user.hashed_password with
    | .error e => (.error e, [])
    | .ok ok =>
      if !ok then
        (.error (.httpException 401 "Неправильний логін або пароль"), [])
      else if !user.confirmed then
        (.error (.httpException 401 "Електронна адреса не підтверджена"), [])
      else
        let access_token :=
          create_access_token { sub := some (some user.username) } none now cfg
        let user_data : UserSnapshot :=
          ⟨user.id, user.username, user.email, user.confirmed, user.avatar⟩
        (.ok ⟨access_token, "bearer"⟩,
         [.set ("user:" ++ user.username) user_data,
          .expire ("user:" ++ user.username) 3600])

/-- A confirmation e-mail queued as a background task. -/
structure EmailTask where
  email : String
  username : String
deriving Repr, DecidableEq

/-- Model of `request_email` from `src/api/auth.py`.  `lookupByEmail`
models `UserService(db).get_user_by_email`.  The code reads
`user.confirmed` before checking that `user` is not `None`, so when no
user with the given e-mail exists, an `AttributeError` propagates
(`None` has no attribute `confirmed`). -/
def request_email (email : String) (lookupByEmail : String → Option User) :
    Except PyError String × List EmailTask :=
  match lookupByEmail email with
  | none => (.error (.attributeError "confirmed"), [])
  | some user =>
    if user.confirmed then
      (.ok "Ваша електронна пошта вже підтверджена", [])
    else
      (.ok "Перевірте свою електронну пошту для підтвердження",
       [⟨user.email, user.username⟩])

/-- The payload of a signed token (for stating properties of issued
tokens). -/
def Token.payload : Token → Option Claims
  | .signed c _ _ => some c
  | .garbage _ => none

/-! Concrete fixtures used by witnesses and counterexamples. -/

/-- A concrete configuration (defaults: HS256, 3600 s lifetime). -/
def cfg0 : Settings := { JWT_SECRET := "secret0" }

/-- A concrete confirmed user whose stored hash is the bcrypt hash of
`pw123`. -/
def user0 : User :=
  ⟨1, "alice", "alice@x.com", get_password_hash "s0" "pw123", true, none⟩

/-- A user store containing exactly `user0`, keyed by username. -/
def lookup0 : String → Option User :=
  fun u => if u = "alice" then some user0 else none

/-- An empty user store. -/
def lookupEmpty : String → Option User := fun _ => none

/-- For a fixed salt, the idealized bcrypt digest is injective in the
password (the collision-freeness idealization). -/
theorem bcryptDigest_injective (salt : String) {p1 p2 : String}
    (h : bcryptDigest salt p1 = bcryptDigest salt p2) : p1 = p2 := by
  have hd := congrArg String.data h
  simp only [bcryptDigest, String.data_append, List.append_assoc] at hd
  exact String.ext (List.append_cancel_left (List.append_cancel_left hd))

/-- C1: a token produced by `create_access_token` with claims
`{sub: u}` is, before its expiry and under the same secret and
algorithm, decoded by `get_current_user` to the subject `u`, which is
then used for the user lookup: the result is exactly the result of
looking up `u` (the user when found, the 401 `credentials_exception`
otherwise). -/
theorem access_token_roundtrip (u : String) (lookup : String → Option User)
    (now tv : Int) (cfg : Settings)
    (h : tv ≤ now + cfg.JWT_EXPIRATION_SECONDS) :
    get_current_user (create_access_token { sub := some (some u) } none now cfg)
        lookup tv cfg
      = (match lookup u with
         | none => .error credentials_exception
         | some user => .ok user) := by
  simp [get_current_user, create_access_token, jose_decode, pyTruthy, h]

/-- C1 witness: the round trip at a concrete username, store, and
time. -/
theorem access_token_roundtrip_witness :
    get_current_user (create_access_token { sub := some (some "alice") } none 0 cfg0)
        lookup0 5 cfg0 = .ok user0 :=
  access_token_roundtrip "alice" lookup0 0 5 cfg0 (by decide)

/-- C2: verifying a password against its own hash returns true, and
verifying a different password against that hash returns false (exact
in the collision-free idealization of bcrypt). -/
theorem hash_verify_spec :
    (∀ salt p, verify_password p (get_password_hash salt p) = .ok true)
    ∧ ∀ salt p1 p2, p1 ≠ p2 →
        verify_password p1 (get_password_hash salt p2) = .ok false := by
  constructor
  · intro salt p
    simp [verify_password, get_password_hash, pwd_context_verify, pwd_context_hash]
  · intro salt p1 p2 hne
    simp only [verify_password, get_password_hash, pwd_context_verify,
      pwd_context_hash, Except.ok.injEq, beq_eq_false_iff_ne, ne_eq]
    exact fun hdig => hne (bcryptDigest_injective salt hdig)

/-- C2 witness: concrete round trip and mismatch. -/
theorem hash_verify_spec_witness :
    verify_password "pw123" (get_password_hash "s0" "pw123") = .ok true
    ∧ verify_password "pw124" (get_password_hash "s0" "pw123") = .ok false :=
  ⟨hash_verify_spec.1 "s0" "pw123",
   hash_verify_spec.2 "s0" "pw124" "pw123" (by decide)⟩

/-- C3 (code bug evaluated): a validly signed, unexpired token whose
payload lacks the `sub` key makes `get_current_user` raise an uncaught
`KeyError` — neither the 401 `credentials_exception` the claim requires
for invalid tokens nor a looked-up user. -/
theorem get_current_user_missing_sub_uncaught :
    get_current_user (.signed { exp := some 200 } cfg0.JWT_SECRET cfg0.JWT_ALGORITHM)
        lookup0 0 cfg0
      = .error (.keyError "sub")
    ∧ PyError.keyError "sub" ≠ credentials_exception := by
  constructor
  · rfl
  · decide

/-- C6 (code bug evaluated): on a decodable token with no `sub` claim,
`get_current_user` does not fail with the 401 credentials exception (as
it does for a decode failure) but raises `KeyError`, which the
`except JWTError` clause does not catch. -/
theorem missing_sub_not_credentials_exception :
    get_current_user (.signed { exp := some 100 } cfg0.JWT_SECRET cfg0.JWT_ALGORITHM)
        lookupEmpty 0 cfg0
      = .error (.keyError "sub")
    ∧ get_current_user (Token.garbage "junk") lookupEmpty 0 cfg0
      = .error credentials_exception
    ∧ PyError.keyError "sub" ≠ credentials_exception := by
  refine ⟨rfl, rfl, by decide⟩

/-- C4 counterexample: an unexpired access token issued for subject
`alice` and presented to `get_email_from_token` is accepted — the email
path returns `alice` as the "email" — contradicting the claim that it
is rejected. -/
theorem access_token_accepted_by_email_path :
    get_email_from_token
        (create_access_token { sub := some (some "alice") } none 0 cfg0) 5 cfg0
      = .ok (some "alice") := by
  rfl

/-- C4 (amended): the two validation paths do not distinguish token
purposes.  An unexpired access token presented to the email path is
accepted and yields its username subject; an unexpired email token
presented to the access path is processed as an access token, and is
rejected only when the user lookup on the email string finds no user
(it is accepted when one exists). -/
theorem token_paths_interchangeable (s : String) (cfg : Settings)
    (now tv : Int) (lookup : String → Option User)
    (h1 : tv ≤ now + cfg.JWT_EXPIRATION_SECONDS)
    (h2 : tv ≤ now + 7 * 86400) :
    get_email_from_token
        (create_access_token { sub := some (some s) } none now cfg) tv cfg
      = .ok (some s)
    ∧ get_current_user (create_email_token { sub := some (some s) } now cfg)
        lookup tv cfg
      = (match lookup s with
         | none => .error credentials_exception
         | some u => .ok u) := by
  constructor
  · simp [get_email_from_token, create_access_token, jose_decode, pyTruthy, h1]
  · have h2' : tv ≤ now + 604800 := by simpa using h2
    simp [get_current_user, create_email_token, jose_decode, h2']

/-- C4 witness: both cross-purpose presentations at concrete inputs. -/
theorem token_paths_interchangeable_witness :
    get_email_from_token
        (create_access_token { sub := some (some "alice") } none 0 cfg0) 7 cfg0
      = .ok (some "alice")
    ∧ get_current_user (create_email_token { sub := some (some "alice") } 0 cfg0)
        lookup0 7 cfg0
      = .ok user0 :=
  token_paths_interchangeable "alice" cfg0 0 7 lookup0 (by decide) (by decide)

/-- C5 counterexample: when no user with the given e-mail exists,
`request_email` does not complete normally with a neutral message: it
raises `AttributeError` (dereferencing `user.confirmed` on `None`). -/
theorem request_email_crashes_on_absent_user :
    request_email "ghost@x.com" lookupEmpty
      = (.error (.attributeError "confirmed"), [])
    ∧ (request_email "ghost@x.com" lookupEmpty).1
      ≠ .ok "Перевірте свою електронну пошту для підтвердження" := by
  refine ⟨rfl, by simp [request_email, lookupEmpty]⟩

/-- C5 (amended): `request_email` returns a neutral acknowledgement
only when a user with the given e-mail exists (the already-confirmed
message for confirmed users, the check-your-mail message otherwise);
when no such user exists it raises `AttributeError` instead of
completing normally, so existence is leaked. -/
theorem request_email_neutral_only_for_existing (e : String)
    (lookupByEmail : String → Option User) :
    (lookupByEmail e = none →
      request_email e lookupByEmail = (.error (.attributeError "confirmed"), []))
    ∧ ∀ u, lookupByEmail e = some u →
        (request_email e lookupByEmail).1 =
          .ok (if u.confirmed then "Ваша електронна пошта вже підтверджена"
               else "Перевірте свою електронну пошту для підтвердження") := by
  constructor
  · intro h
    simp [request_email, h]
  · intro u hu
    cases hc : u.confirmed <;> simp [request_email, hu, hc]

/-- C5 witness: both branches of the amended claim at concrete
inputs. -/
theorem request_email_neutral_witness :
    request_email "ghost@x.com" (fun _ => none)
      = (.error (.attributeError "confirmed"), [])
    ∧ (request_email "alice@x.com" (fun _ => some user0)).1
      = .ok "Ваша електронна пошта вже підтверджена" := by
  have h := request_email_neutral_only_for_existing "ghost@x.com" (fun _ => none)
  have h2 := request_email_neutral_only_for_existing "alice@x.com" (fun _ => some user0)
  exact ⟨h.1 rfl, by simpa using h2.2 user0 rfl⟩

/-- C7 counterexample: on a string passlib cannot identify as a bcrypt
hash, `verify_password` raises `UnknownHashError`; it does not return
false. -/
theorem verify_password_raises_on_malformed :
    verify_password "pw123" (PHash.malformed "notahash")
      = .error .unknownHashError
    ∧ verify_password "pw123" (PHash.malformed "notahash") ≠ .ok false := by
  refine ⟨rfl, by simp [verify_password, pwd_context_verify]⟩

/-- C7 (amended): for every password and every malformed hash string,
`verify_password` raises passlib's `UnknownHashError` (rather than
returning false): the delegation to `pwd_context.verify` catches
nothing. -/
theorem verify_password_malformed_raises (p raw : String) :
    verify_password p (PHash.malformed raw) = .error .unknownHashError := rfl

/-- C8: whenever decoding fails (wrong secret, wrong algorithm, expired
`exp` claim, or not a JWT at all), `get_email_from_token` fails with
the HTTP 422 error, a failure kind distinct from the HTTP 401
`credentials_exception` that `get_current_user` raises on the same
token. -/
theorem email_token_decode_failure_422 (t : Token) (now : Int)
    (cfg : Settings) (lookup : String → Option User)
    (h : jose_decode t cfg.JWT_SECRET cfg.JWT_ALGORITHM now = none) :
    get_email_from_token t now cfg
      = .error (.httpException 422
          "Неправильний токен для перевірки електронної пошти")
    ∧ get_current_user t lookup now cfg = .error credentials_exception
    ∧ PyError.httpException 422 "Неправильний токен для перевірки електронної пошти"
        ≠ credentials_exception := by
  refine ⟨?_, ?_, by decide⟩
  · simp [get_email_from_token, h]
  · simp [get_current_user, h]

/-- C8 witness: a non-JWT string at a concrete configuration. -/
theorem email_token_decode_failure_422_witness :
    get_email_from_token (Token.garbage "not-a-jwt") 0 cfg0
      = .error (.httpException 422
          "Неправильний токен для перевірки електронної пошти")
    ∧ get_current_user (Token.garbage "not-a-jwt") lookup0 0 cfg0
      = .error credentials_exception :=
  ⟨(email_token_decode_failure_422 (Token.garbage "not-a-jwt") 0 cfg0 lookup0 rfl).1,
   (email_token_decode_failure_422 (Token.garbage "not-a-jwt") 0 cfg0 lookup0 rfl).2.1⟩

/-- C9: `login_user` writes to redis exactly when the credentials are
valid and the user is confirmed; the successful write is the snapshot
`{id, username, email, confirmed, avatar}` under key
`user:<username>` followed by an expiry of 3600 seconds, together with
an issued access token; and on any failure (unknown user, wrong
password, raising verify, or unconfirmed account) the handler raises
with no redis operation performed (hence no token and no cache
write). -/
theorem login_cache_and_token (uname pw : String)
    (lookup : String → Option User) (now : Int) (cfg : Settings) :
    (((login_user uname pw lookup now cfg).2 ≠ []) ↔
      ∃ u, lookup uname = some u
        ∧ verify_password pw u.hashed_password = .ok true
        ∧ u.confirmed = true)
    ∧ (∀ u, lookup uname = some u →
        verify_password pw u.hashed_password = .ok true → u.confirmed = true →
        login_user uname pw lookup now cfg =
          (.ok ⟨create_access_token { sub := some (some u.username) } none now cfg,
                "bearer"⟩,
           [.set ("user:" ++ u.username)
              ⟨u.id, u.username, u.email, u.confirmed, u.avatar⟩,
            .expire ("user:" ++ u.username) 3600]))
    ∧ ∀ e, (login_user uname pw lookup now cfg).1 = .error e →
        (login_user uname pw lookup now cfg).2 = [] := by
  refine ⟨?_, ?_, ?_⟩
  · cases hl : lookup uname with
    | none => simp [login_user, hl]
    | some u =>
      cases hv : verify_password pw u.hashed_password with
      | error e => simp [login_user, hl, hv]
      | ok b =>
        cases b with
        | false => simp [login_user, hl, hv]
        | true =>
          cases hc : u.confirmed with
          | false => simp [login_user, hl, hv, hc]
          | true => simp [login_user, hl, hv, hc]
  · intro u hl hv hc
    simp [login_user, hl, hv, hc]
  · intro e he
    revert he
    cases hl : lookup uname with
    | none => simp [login_user, hl]
    | some u =>
      cases hv : verify_password pw u.hashed_password with
      | error e2 => simp [login_user, hl, hv]
      | ok b =>
        cases b with
        | false => simp [login_user, hl, hv]
        | true =>
          cases hc : u.confirmed with
          | false => simp [login_user, hl, hv, hc]
          | true => simp [login_user, hl, hv, hc]

/-- C9 witness: successful login of `user0` performs exactly the
snapshot write and the 3600-second expiry. -/
theorem login_cache_and_token_witness :
    login_user "alice" "pw123" lookup0 0 cfg0 =
      (.ok ⟨create_access_token { sub := some (some user0.username) } none 0 cfg0,
            "bearer"⟩,
       [.set ("user:" ++ user0.username)
          ⟨user0.id, user0.username, user0.email, user0.confirmed, user0.avatar⟩,
        .expire ("user:" ++ user0.username) 3600]) :=
  (login_cache_and_token "alice" "pw123" lookup0 0 cfg0).2.1 user0
    (by decide) rfl rfl

/-- C10: calling `create_access_token` with `expires_delta = 0`
behaves exactly as calling it with no `expires_delta` (the `if
expires_delta:` branch tests truthiness, and `0` is falsy): the expiry
claim is `now + JWT_EXPIRATION_SECONDS`, and provided the configured
lifetime is nonnegative the token decodes successfully at issuance
time — it is not already expired. -/
theorem create_access_token_zero_delta (data : Claims) (now : Int)
    (cfg : Settings) (h : 0 ≤ cfg.JWT_EXPIRATION_SECONDS) :
    create_access_token data (some 0) now cfg
      = create_access_token data none now cfg
    ∧ create_access_token data (some 0) now cfg
      = .signed { data with exp := some (now + cfg.JWT_EXPIRATION_SECONDS) }
          cfg.JWT_SECRET cfg.JWT_ALGORITHM
    ∧ jose_decode (create_access_token data (some 0) now cfg)
        cfg.JWT_SECRET cfg.JWT_ALGORITHM now
      = some { data with exp := some (now + cfg.JWT_EXPIRATION_SECONDS) } := by
  have hle : now ≤ now + cfg.JWT_EXPIRATION_SECONDS := le_add_of_nonneg_right h
  refine ⟨rfl, rfl, ?_⟩
  simp [create_access_token, jose_decode, pyTruthy, hle]

/-- C10 witness: `expires_delta = 0` at the default 3600-second
configuration produces an unexpired token with expiry `now + 3600`. -/
theorem create_access_token_zero_delta_witness :
    create_access_token { sub := some (some "alice") } (some 0) 0 cfg0
      = create_access_token { sub := some (some "alice") } none 0 cfg0
    ∧ jose_decode (create_access_token { sub := some (some "alice") } (some 0) 0 cfg0)
        cfg0.JWT_SECRET cfg0.JWT_ALGORITHM 0
      = some { sub := some (some "alice"), iat := none, exp := some 3600 } :=
  ⟨(create_access_token_zero_delta { sub := some (some "alice") } 0 cfg0 (by decide)).1,
   (create_access_token_zero_delta { sub := some (some "alice") } 0 cfg0 (by decide)).2.2⟩
